import Mathlib

/-!
Verification of the Modal UI component (`src/discord/ui/modal.py`) of the
discord.py_ repository.  The Python class `Modal(View)` is shallowly embedded:
its mutable object state becomes the structure `Modal`, methods become pure
functions (explicit state passing where the method mutates), and fallible
methods return `Except`.  The pieces of the repository that `modal.py` uses
but that are not part of the provided source (the `View` base class's weight
allocator and `to_components` layout serializer, and the `Item` capability)
are modelled from the specification and are marked as such.
-/

namespace DiscordUI

/-- An `Item` (external capability, modelled from the spec): a UI element with a
declared width, an `is_persistent()` report, an opaque serialized component
payload (`payloadId`), and a back-reference slot to its container (`viewSet`
records whether `_view` has been assigned). -/
structure Item where
  width : Nat
  persistent : Bool
  payloadId : Nat
  viewSet : Bool
deriving DecidableEq, Repr

/-- An argument passed to `add_item`: either an actual `Item` or a value that
fails the `isinstance(item, Item)` check. -/
inductive MaybeItem where
  | item : Item → MaybeItem
  | notItem : MaybeItem
deriving DecidableEq, Repr

/-- One lowercase hex digit, as produced by Python's `bytes.hex()`:
`0`–`9` are code points 48–57, `a`–`f` are 97–102. -/
def hexDigitChar (n : Nat) : Char :=
  if n < 10 then Char.ofNat (48 + n) else Char.ofNat (87 + n)

/-- The two hex digits of one byte, high nibble first. -/
def byteHex (b : Nat) : List Char :=
  [hexDigitChar (b / 16), hexDigitChar (b % 16)]

/-- The character sequence of `bytes.hex()` applied to a byte string. -/
def bytesHexChars (bs : List Nat) : List Char :=
  (bs.map byteHex).flatten

/-- `os.urandom(16).hex()` for a given byte string: lowercase hex encoding. -/
def bytesHex (bs : List Nat) : String :=
  ⟨bytesHexChars bs⟩

/-- Whether a character is a lowercase hexadecimal digit. -/
def isLowerHexDigit (c : Char) : Bool :=
  (('0' ≤ c) && (c ≤ '9')) || (('a' ≤ c) && (c ≤ 'f'))

/-- Modelled from the spec: the row/weight-allocation collaborator
(`self.__weights.add_item`, part of the `View` base class, not in the provided
source).  The spec: "assigns the item to a row 0–4 based on its declared width
and current row occupancy, failing if no row has room".  First fit: returns the
index of the first row whose occupancy plus the width stays within 5, together
with the updated occupancy list, or `none` when no row has room. -/
def firstFitRow (weights : List Nat) (width : Nat) : Option (Nat × List Nat) :=
  match weights with
  | [] => none
  | w :: ws =>
    if w + width ≤ 5 then some (0, (w + width) :: ws)
    else
      match firstFitRow ws width with
      | none => none
      | some (r, ws2) => some (r + 1, w :: ws2)

/-- Modelled from the spec: the state update performed by the weight
allocator when an item is placed (row index discarded). -/
def weightsAdd (weights : List Nat) (width : Nat) : Option (List Nat) :=
  (firstFitRow weights width).map Prod.snd

/-- Modelled from the spec: row assignment of a sequence of children in order,
each placed by first fit; `none` when some child cannot be placed. -/
def assignRows (weights : List Nat) : List Item → Option (List (Nat × Item))
  | [] => some []
  | it :: rest =>
    match firstFitRow weights it.width with
    | none => none
    | some (r, ws2) => (assignRows ws2 rest).map (fun l => (r, it) :: l)

/-- Modelled from the spec: the container layout serializer
(`self.to_components()`, part of the `View` base class, not in the provided
source), producing "the serialized, row-grouped representation of all
children": children are assigned to the five rows, and the payloads of each
nonempty row are listed row by row. -/
def to_components (children : List Item) : List (List Nat) :=
  match assignRows [0, 0, 0, 0, 0] children with
  | none => []
  | some assigned =>
    ((List.range 5).map
      (fun r => (assigned.filter (fun p => p.1 == r)).map (fun p => p.2.payloadId))).filter
      (fun row => !row.isEmpty)

/-- The state of a `Modal` object.  `timeout` and `children` and `weights` come
from the `View` base state (spec §3); `title`, `custom_id`,
`provided_custom_id` (`_provided_custom_id`) and `row` are set by
`Modal.__init__`. -/
structure Modal where
  timeout : Option Rat
  title : Option String
  custom_id : String
  provided_custom_id : Bool
  row : Option Int
  children : List Item
  weights : List Nat
deriving DecidableEq, Repr

/-- `Modal.__init__`.  The `MISSING` sentinel for `custom_id` and `children`
is rendered as `none`.  `randBytes` stands for the bytes `os.urandom(16)`
would return.  `super().__init__(timeout)` (the `View` constructor, modelled
from the spec) installs the timeout, an empty children list and fresh row
weights; then `_provided_custom_id := custom_id is not MISSING`, the fields
are stored, and an initial `children` sequence is appended via
`self.children.extend(children)`. -/
def Modal.make (timeout : Option Rat) (title : Option String)
    (custom_id : Option String) (row : Option Int)
    (children : Option (List Item)) (randBytes : List Nat) : Modal :=
  { timeout := timeout
    provided_custom_id := custom_id.isSome
    title := title
    custom_id := match custom_id with
      | none => bytesHex randBytes
      | some c => c
    row := row
    children := ([] : List Item) ++ (match children with
      | none => []
      | some cs => cs)
    weights := [0, 0, 0, 0, 0] }

/-- The errors `Modal.add_item` can raise: `ValueError('maximum number of
children exceeded')`, `TypeError('expected Item ...')`, and the `ValueError`
propagated from the weight allocator when a row is full. -/
inductive AddErr where
  | capacityExceeded
  | typeMismatch
  | layoutFull
deriving DecidableEq, Repr

/-- `Modal.add_item`, statement by statement: first the capacity check
`len(self.children) > 5`, then the `isinstance(item, Item)` check, then
`self.__weights.add_item(item)`, then `item._view = self` and
`self.children.append(item)`. -/
def Modal.add_item (m : Modal) (x : MaybeItem) : Except AddErr Modal :=
  if m.children.length > 5 then .error .capacityExceeded
  else
    match x with
    | .notItem => .error .typeMismatch
    | .item it =>
      match weightsAdd m.weights it.width with
      | none => .error .layoutFull
      | some ws =>
        .ok { m with
              weights := ws
              children := m.children ++ [{ it with viewSet := true }] }

/-- The wire payload built by `Modal.to_callback_data`: `custom_id` and
`components` are always present; `title = none` renders the absence of the
`'title'` key. -/
structure CallbackData where
  custom_id : String
  components : List (List Nat)
  title : Option String
deriving DecidableEq, Repr

/-- `Modal.to_callback_data`: builds the payload with `custom_id` and
`components`, and adds the `'title'` key exactly when `self.title is not
None`. -/
def Modal.to_callback_data (m : Modal) : CallbackData :=
  { custom_id := m.custom_id
    components := to_components m.children
    title := m.title }

/-- `Modal.to_callback_data` with the object state threaded explicitly: the
method performs no assignment to `self`, so the state component is returned
unchanged. -/
def to_callback_data_run (m : Modal) : CallbackData × Modal :=
  (m.to_callback_data, m)

/-- `Modal.is_persistent`: `self.timeout is None and self._provided_custom_id
and all(item.is_persistent() for item in self.children)`. -/
def Modal.is_persistent (m : Modal) : Bool :=
  m.timeout.isNone && m.provided_custom_id && m.children.all (fun it => it.persistent)

/-- A member of a class body (`base.__dict__`), as seen by
`Modal.__init_subclass__`: its attribute name and whether it carries the
`__discord_ui_model_type__` tag. -/
structure Member where
  name : String
  tagged : Bool
deriving DecidableEq, Repr

/-- The collection loop of `Modal.__init_subclass__`: for each base in
`reversed(cls.__mro__)` (the argument `mro` is in Python MRO order, derived
class first), every member of the class body carrying the tag is appended. -/
def collectChildren (mro : List (List Member)) : List Member :=
  (mro.reverse.map (fun base => base.filter (fun mem => mem.tagged))).flatten

/-- `Modal.__init_subclass__`: collects the tagged members across the MRO and
raises `TypeError('View cannot have more than 5 children')` when more than 5
were collected; otherwise stores them as `cls.__view_children_items__`. -/
def initSubclass (mro : List (List Member)) : Except String (List Member) :=
  let children := collectChildren mro
  if children.length > 5 then .error "View cannot have more than 5 children"
  else .ok children

/-- The error payload of an `Except` result, when there is one (used to state
concrete evaluations, since `Except` carries no decidable equality). -/
def exceptErr {ε α : Type} : Except ε α → Option ε
  | .error e => some e
  | .ok _ => none

/-- A width-1, persistent item used as a concrete input below. -/
def sampleItem : Item :=
  { width := 1, persistent := true, payloadId := 0, viewSet := false }

/-- A modal constructed with exactly five initial children. -/
def fiveChildModal : Modal :=
  Modal.make (some 180) none none none (some (List.replicate 5 sampleItem)) []

/-- A modal constructed with six initial children. -/
def sixChildModal : Modal :=
  Modal.make (some 180) none none none (some (List.replicate 6 sampleItem)) []

/-- `n` successive `add_item` calls of `sampleItem`, stopping at the first
error. -/
def addSampleN (m : Modal) : Nat → Except AddErr Modal
  | 0 => .ok m
  | n + 1 =>
    match m.add_item (.item sampleItem) with
    | .error e => .error e
    | .ok m2 => addSampleN m2 n

/-- A modal whose title is the empty string (supplied, but empty). -/
def emptyTitleModal : Modal :=
  Modal.make (some 180) (some "") (some "abc") none none []

/-- A modal whose title is `"Form"`. -/
def formModal : Modal :=
  Modal.make (some 180) (some "Form") (some "abc") none none []

/-- A modal that already holds six children (reached through the constructor;
used to exercise the capacity branch of `add_item`). -/
def sixHeldModal : Modal :=
  Modal.make (some 180) none none none (some (List.replicate 6 sampleItem)) []

/-- An MRO (derived first) with one class declaring six tagged members. -/
def sixTaggedMro : List (List Member) :=
  [[⟨"a", true⟩, ⟨"b", true⟩, ⟨"c", true⟩, ⟨"d", true⟩, ⟨"e", true⟩, ⟨"f", true⟩]]

/-- An MRO (derived first) with one class declaring five tagged members. -/
def fiveTaggedMro : List (List Member) :=
  [[⟨"a", true⟩, ⟨"b", true⟩, ⟨"c", true⟩, ⟨"d", true⟩, ⟨"e", true⟩]]

/-- An MRO where the derived class overrides the tagged member `cb1` of an
ancestor that declares five tagged members. -/
def overrideMro : List (List Member) :=
  [[⟨"cb1", true⟩],
   [⟨"cb1", true⟩, ⟨"cb2", true⟩, ⟨"cb3", true⟩, ⟨"cb4", true⟩, ⟨"cb5", true⟩]]

/-! ## Supporting lemmas -/

/-- The hex encoding of a byte string has two characters per byte. -/
theorem bytesHexChars_length (bs : List Nat) :
    (bytesHexChars bs).length = 2 * bs.length := by
  induction bs with
  | nil => rfl
  | cons b rest ih =>
    simp only [bytesHexChars, List.map_cons, List.flatten_cons, List.length_append,
      List.length_cons] at *
    simp [byteHex, ih]
    ring

/-- Every hex digit produced for a nibble is a lowercase hex character. -/
theorem hexDigitChar_lower : ∀ n, n < 16 → isLowerHexDigit (hexDigitChar n) = true := by
  decide

/-- Every character of the hex encoding of a byte string is a lowercase hex
character. -/
theorem bytesHexChars_lower (bs : List Nat) (hbs : ∀ b ∈ bs, b < 256) :
    ∀ c ∈ bytesHexChars bs, isLowerHexDigit c = true := by
  induction bs with
  | nil => intro c hc; simp [bytesHexChars] at hc
  | cons b rest ih =>
    intro c hc
    have hb : b < 256 := hbs b (by simp)
    have hdiv : b / 16 < 16 := Nat.div_lt_of_lt_mul (by omega)
    have hmod : b % 16 < 16 := Nat.mod_lt _ (by omega)
    simp only [bytesHexChars, List.map_cons, List.flatten_cons, List.mem_append] at hc
    rcases hc with hc | hc
    · simp only [byteHex, List.mem_cons, List.not_mem_nil, or_false] at hc
      rcases hc with rfl | rfl
      · exact hexDigitChar_lower _ hdiv
      · exact hexDigitChar_lower _ hmod
    · exact ih (fun x hx => hbs x (by simp [hx])) c hc

/-! ## Claims -/

/-- C1: (code bug) the spec and the method's own docstring cap a modal at 5
children, but the capacity check `len(self.children) > 5` lets `add_item`
accept a 6th child into a modal already holding exactly 5: the call returns
normally and the modal then holds 6 children, where the claim requires a
CapacityExceeded (`ValueError`) failure. -/
theorem c1_sixth_add_succeeds :
    (fiveChildModal.add_item (.item sampleItem)).isOk = true
    ∧ ((fiveChildModal.add_item (.item sampleItem)).toOption.map
        (fun m => m.children.length)) = some 6 := by
  decide

/-- C2: (counterexample) initial children are not appended via `add_item`:
constructing a modal with six initial children succeeds (no capacity check)
and none of the stored children has received the back-reference to the
container. -/
theorem c2_extend_not_add_item :
    sixChildModal.children.length = 6
    ∧ (∀ c ∈ sixChildModal.children, c.viewSet = false)
    ∧ ¬ (sixChildModal.children.length ≤ 5
          ∧ ∀ c ∈ sixChildModal.children, c.viewSet = true) := by
  decide

/-- C2 (amended): an initial `children` sequence is appended directly to the
children list by `self.children.extend(children)`: insertion order is
preserved and each item is stored unchanged (so no back-reference is set), no
capacity or type check runs, and the row weights are left untouched. -/
theorem c2_children_extended (t : Option Rat) (ti : Option String)
    (cid : Option String) (r : Option Int) (cs : List Item) (bs : List Nat) :
    (Modal.make t ti cid r (some cs) bs).children = cs
    ∧ (Modal.make t ti cid r (some cs) bs).weights = [0, 0, 0, 0, 0] :=
  ⟨rfl, rfl⟩

/-- C3: (code bug) the ≤ 5 children invariant fails on states reachable by
construction and `add_item` alone: starting from an empty modal, six
successive `add_item` calls all succeed and the modal reaches 6 children (the
7th call is the first to be rejected). -/
theorem c3_invariant_violated :
    ((addSampleN (Modal.make (some 180) none none none none []) 6).toOption.map
        (fun m => m.children.length)) = some 6
    ∧ exceptErr (addSampleN (Modal.make (some 180) none none none none []) 7)
        = some .capacityExceeded := by
  decide

/-- C4: `is_persistent` is `true` exactly when no timeout is configured, the
`custom_id` was caller-supplied, and every child reports itself
persistent. -/
theorem c4_is_persistent_iff (m : Modal) :
    m.is_persistent = true
    ↔ (m.timeout = none ∧ m.provided_custom_id = true
        ∧ ∀ c ∈ m.children, c.persistent = true) := by
  simp [Modal.is_persistent, Option.isNone_iff_eq_none, List.all_eq_true, and_assoc]

/-- C5: (counterexample) with `title` the empty string the payload still
carries the `title` key (the source tests `self.title is not None`, not
non-emptiness), refuting "contains a title key if and only if title is
non-empty" at this input. -/
theorem c5_empty_title_included :
    ¬ ((emptyTitleModal.to_callback_data.title ≠ none)
        ↔ (emptyTitleModal.title ≠ none ∧ emptyTitleModal.title ≠ some "")) := by
  decide

/-- C5 (amended): the payload always carries `custom_id` (the modal's
identifier) and `components` (the layout serialization of the children); the
`title` key is present if and only if `title` is not `None`, and carries the
title verbatim — in particular the key is present (with empty value) when the
title is the empty string. -/
theorem c5_payload_shape (m : Modal) :
    m.to_callback_data.custom_id = m.custom_id
    ∧ m.to_callback_data.components = to_components m.children
    ∧ (m.to_callback_data.title = none ↔ m.title = none)
    ∧ (∀ s, m.title = some s → m.to_callback_data.title = some s) :=
  ⟨rfl, rfl, Iff.rfl, fun _ h => h⟩

/-- C5 (amended) witness: the modal titled `"Form"` includes
`title = "Form"` in its payload. -/
theorem c5_payload_shape_witness :
    formModal.to_callback_data.title = some "Form" :=
  (c5_payload_shape formModal).2.2.2 "Form" rfl

/-- C6: subclass registration fails at definition time with the
TooManyChildren error exactly when more than 5 callback-tagged members are
collected across the inheritance chain; with at most 5 (in particular exactly
5) the definition succeeds and stores the collected members. -/
theorem c6_subclass_cap (mro : List (List Member)) :
    (5 < (collectChildren mro).length
      → initSubclass mro = .error "View cannot have more than 5 children")
    ∧ ((collectChildren mro).length ≤ 5
      → initSubclass mro = .ok (collectChildren mro)) := by
  constructor
  · intro h
    simp [initSubclass, h]
  · intro h
    simp [initSubclass, Nat.not_lt.mpr h]

/-- C6 witness: a chain with six tagged members is rejected at definition
time, and one with exactly five is accepted. -/
theorem c6_subclass_cap_witness :
    initSubclass sixTaggedMro = .error "View cannot have more than 5 children"
    ∧ initSubclass fiveTaggedMro = .ok (collectChildren fiveTaggedMro) :=
  ⟨(c6_subclass_cap sixTaggedMro).1 (by decide),
   (c6_subclass_cap fiveTaggedMro).2 (by decide)⟩

/-- C7: (counterexample) the collection loop does not deduplicate by member
name: a subclass overriding the tagged member `cb1` of an ancestor with five
tagged members yields six collected entries (duplicate names), and the
definition is rejected even though only five distinct member names exist. -/
theorem c7_override_duplicates :
    (collectChildren overrideMro).length = 6
    ∧ ¬ ((collectChildren overrideMro).map Member.name).Nodup
    ∧ ((collectChildren overrideMro).map Member.name).dedup.length = 5
    ∧ exceptErr (initSubclass overrideMro)
        = some "View cannot have more than 5 children" := by
  decide

/-- C7 (amended): the collected list is not keyed by member name: every
tagged member contributes one entry per class of the chain that declares it,
so the collected length is the sum over the inheritance chain of each class's
tagged-member count, and an overridden member counts once per declaration
toward the 5-member cap. -/
theorem c7_no_dedup (mro : List (List Member)) :
    (collectChildren mro).length
      = (mro.map (fun base => (base.filter (fun mem => mem.tagged)).length)).sum := by
  simp [collectChildren, List.length_flatten, List.map_map, Function.comp_def,
    List.sum_reverse]

/-- C8: `to_callback_data` mutates no state and is deterministic: with the
object state threaded explicitly, the state comes back unchanged, a second
call on the returned state yields an equal payload, and the identifier in the
payload is the stored `custom_id` (no re-randomization). -/
theorem c8_pure_deterministic (m : Modal) :
    (to_callback_data_run m).2 = m
    ∧ (to_callback_data_run m).1 = (to_callback_data_run (to_callback_data_run m).2).1
    ∧ (to_callback_data_run m).1.custom_id = m.custom_id
    ∧ (to_callback_data_run m).2.title = m.title
    ∧ (to_callback_data_run m).2.children = m.children
    ∧ (to_callback_data_run m).2.timeout = m.timeout
    ∧ (to_callback_data_run m).2.row = m.row :=
  ⟨rfl, rfl, rfl, rfl, rfl, rfl, rfl⟩

/-- C9: when no `custom_id` is supplied, the identifier is the hex encoding
of the 16 random bytes — a 32-character lowercase-hexadecimal string — and
`_provided_custom_id` is `false`; when one is supplied it is stored verbatim
and the flag is `true`. -/
theorem c9_custom_id (t : Option Rat) (ti : Option String) (r : Option Int)
    (bs : List Nat) (hlen : bs.length = 16) (hbs : ∀ b ∈ bs, b < 256) :
    (Modal.make t ti none r none bs).custom_id.length = 32
    ∧ (∀ c ∈ (Modal.make t ti none r none bs).custom_id.data,
        isLowerHexDigit c = true)
    ∧ (Modal.make t ti none r none bs).provided_custom_id = false
    ∧ (∀ s, (Modal.make t ti (some s) r none bs).custom_id = s
        ∧ (Modal.make t ti (some s) r none bs).provided_custom_id = true) := by
  refine ⟨?_, ?_, rfl, fun s => ⟨rfl, rfl⟩⟩
  · show (bytesHexChars bs).length = 32
    rw [bytesHexChars_length, hlen]
  · exact bytesHexChars_lower bs hbs

/-- C9 witness: with the concrete byte string `0x00 … 0x00 0xff` the
generated identifier has length 32. -/
theorem c9_custom_id_witness :
    (Modal.make none none none none none
        (List.replicate 15 0 ++ [255])).custom_id.length = 32 :=
  (c9_custom_id none none none (List.replicate 15 0 ++ [255])
    (by decide) (by decide)).1

/-- C10: in `add_item` the capacity check precedes the type check: whenever
the modal already holds more than 5 children the call fails with the
CapacityExceeded `ValueError` for every argument, Item or not; and a
TypeMismatch `TypeError` arises only when the capacity check has passed (and
the argument is not an Item). -/
theorem c10_capacity_before_type (m : Modal) (x : MaybeItem) :
    (5 < m.children.length → m.add_item x = .error .capacityExceeded)
    ∧ (m.add_item x = .error .typeMismatch
        → m.children.length ≤ 5 ∧ x = .notItem) := by
  constructor
  · intro h
    simp [Modal.add_item, h]
  · intro h
    by_cases hlen : m.children.length > 5
    · simp [Modal.add_item, hlen] at h
    · refine ⟨Nat.not_lt.mp hlen, ?_⟩
      cases x with
      | notItem => rfl
      | item it =>
        simp only [Modal.add_item, if_neg hlen] at h
        cases hw : weightsAdd m.weights it.width with
        | none => rw [hw] at h; exact absurd h (by simp)
        | some ws => rw [hw] at h; exact absurd h (by simp)

/-- C10 witness: on a modal already holding six children, passing a non-Item
fails with CapacityExceeded, not TypeMismatch. -/
theorem c10_capacity_before_type_witness :
    sixHeldModal.add_item .notItem = .error .capacityExceeded :=
  (c10_capacity_before_type sixHeldModal .notItem).1 (by decide)

end DiscordUI
